import Mathlib

/-!
Verification development for the fog-worker agent (`src/main.py`).

The agent exposes four operations: reading host capacity (`get_load`),
imposing synthetic load (`set_load`), running a container job
(`run_docker_container`) and reclaiming all containers
(`stop_all_docker_containers`).  Each is shallowly embedded below: the
OS/driver/runtime reads that the Python code performs (psutil, pyopencl,
docker) become explicit inputs, numeric values become rationals, and a
Python exception caught or propagated becomes an explicit error value.
-/

deriving instance DecidableEq for Except

namespace FogWorker

/-- One OpenCL device as pyopencl reports it: its device type (classified
here only as GPU or not), `max_compute_units` and `max_clock_frequency`
(in MHz). -/
structure ClDevice where
  isGPU : Bool
  max_compute_units : ℚ
  max_clock_frequency : ℚ
deriving DecidableEq, Repr

/-- One OpenCL platform: the list of its devices, in enumeration order. -/
structure ClPlatform where
  devices : List ClDevice
deriving DecidableEq, Repr

/-- The dictionary built by `get_gpu_info` (main.py lines 57-62).
`gpu_load` is `none` exactly when the Python value is `None`. -/
structure GpuInfo where
  gpu_load : Option ℚ
  total_FLOPS : ℚ
  available_FLOPS : ℚ
  available_FLOPS_percentage : ℚ
deriving DecidableEq, Repr

/-- The first device of GPU type in a device list: the device the inner
loop of `get_gpu_info` (main.py lines 37-54) stops at. -/
def firstGPU (ds : List ClDevice) : Option ClDevice :=
  ds.find? (fun d => d.isGPU)

/-- The figures `get_gpu_info` computes for one GPU device
(main.py lines 40-52): `total_flops = 2 * compute_units * clock_MHz * 10^6
/ 10^12` (TFLOPS), availability scaled by the CPU-load proxy, and the
percentage `available / total * 100`. -/
def gpuComputed (cpu_load : ℚ) (d : ClDevice) : GpuInfo :=
  let total_flops := 2 * d.max_compute_units * d.max_clock_frequency * 10 ^ 6 / 10 ^ 12
  let gpu_load := cpu_load
  let available_flops := total_flops * (1 - gpu_load / 100)
  ⟨some gpu_load, total_flops, available_flops, available_flops / total_flops * 100⟩

/-- One iteration of the outer platform loop of `get_gpu_info`
(main.py lines 35-54).  The `break` leaves only the inner device loop, so
a later platform holding a GPU overwrites the state again.  Python's
`available_flops / total_flops` raises `ZeroDivisionError` when
`total_flops` is zero; that exception is the error case here. -/
def gpuStep (cpu_load : ℚ) (st : GpuInfo) (p : ClPlatform) : Except String GpuInfo :=
  match firstGPU p.devices with
  | none => .ok st
  | some d =>
    let info := gpuComputed cpu_load d
    if info.total_FLOPS = 0 then .error "float division by zero"
    else .ok info

/-- The outer platform loop of `get_gpu_info` (main.py lines 35-54),
threading the running values of `gpu_load`, `total_flops`,
`available_flops` and `available_flops_percentage`; a raised
`ZeroDivisionError` aborts the loop. -/
def gpuLoop (cpu_load : ℚ) : GpuInfo → List ClPlatform → Except String GpuInfo
  | st, [] => .ok st
  | st, p :: ps =>
    match gpuStep cpu_load st p with
    | .error e => .error e
    | .ok st2 => gpuLoop cpu_load st2 ps

/-- Embedding of `get_gpu_info` (main.py lines 23-64): reads the OpenCL platform list,
samples CPU load over a fixed 1-second window as a proxy for GPU load
(a sample of its own, taken inside this function at line 32), then runs
the platform loop starting from the zero-filled defaults of lines 26-29.
The two reads are passed as `Except`-valued inputs: an `error` input
stands for the corresponding library call raising. -/
def get_gpu_info (platformsE : Except String (List ClPlatform))
    (cpuLoadE : Except String ℚ) : Except String GpuInfo :=
  match platformsE with
  | .error e => .error e
  | .ok platforms =>
    match cpuLoadE with
    | .error e => .error e
    | .ok cpu_load => gpuLoop cpu_load ⟨none, 0, 0, 0⟩ platforms

/-- The telemetry read results consumed by one `get_load` call
(main.py lines 99-128).  Each `Except`-valued field is the outcome of one
library call inside the `try` block: `.ok` carries the value read,
`.error` stands for that call raising.  `cpu_freq` carries
`(max, current)`.  `rand_uniform` is the `random.uniform(0, 1)` draw of
line 124.  `gpu_cpu_load` is the separate 1-second CPU sample taken
inside `get_gpu_info`. -/
structure LoadInputs where
  cpu_load : Except String ℚ
  cpu_freq : Except String (ℚ × ℚ)
  num_cores : Except String ℕ
  virtual_memory_available : Except String ℚ
  rand_uniform : ℚ
  cl_platforms : Except String (List ClPlatform)
  gpu_cpu_load : Except String ℚ
deriving DecidableEq, Repr

/-- The JSON body `get_load` returns on success (main.py lines 119-128),
field for field. -/
structure LoadBody where
  cpu_load : ℚ
  total_FLOPS : ℚ
  available_FLOPS : ℚ
  available_FLOPS_percentage : ℚ
  available_gpu_FLOPS_percentage : ℚ
  available_RAM : ℚ
  current_freq : ℚ
  gpu : GpuInfo
deriving DecidableEq, Repr

/-- What the `get_load` endpoint returns: either the success body, or —
when the `except` clause of lines 131-133 catches an exception — the pair
of the dictionary `{"error": str(e)}` (modelled as a key/value list) and
the numeral `500`. -/
inductive LoadResult where
  | ok (body : LoadBody)
  | failure (body : List (String × String)) (status : ℕ)
deriving DecidableEq, Repr

/-- Selection of `max_freq` (main.py line 105): the reported max clock if it
is positive, otherwise the current clock. -/
def effective_max_freq (fmax fcur : ℚ) : ℚ :=
  if fmax > 0 then fmax else fcur

/-- Computation of `total_flops` (main.py line 110): `2 * num_cores * max_freq * 10^9`,
two FLOPs per cycle. -/
def cpu_total_flops (ncores : ℕ) (fmax fcur : ℚ) : ℚ :=
  2 * ncores * effective_max_freq fmax fcur * 10 ^ 9

/-- Embedding of `get_load` (main.py lines 67-133).  The reads happen in source order;
the first raising read aborts the `try` block and the `except` clause
returns `({"error": str(e)}, 500)`.  The division of line 115 raises
`ZeroDivisionError` when `total_flops` is zero, which the same `except`
clause turns into the same error pair. -/
def get_load (i : LoadInputs) : LoadResult :=
  match i.cpu_load with
  | .error e => .failure [("error", e)] 500
  | .ok cpu_load =>
  match i.cpu_freq with
  | .error e => .failure [("error", e)] 500
  | .ok (fmax, fcur) =>
  match i.num_cores with
  | .error e => .failure [("error", e)] 500
  | .ok ncores =>
    let total_flops := cpu_total_flops ncores fmax fcur
    let available_flops := total_flops * (1 - cpu_load / 100)
    if total_flops = 0 then .failure [("error", "float division by zero")] 500
    else
      let available_flops_percentage := available_flops / total_flops * 100
      match i.virtual_memory_available with
      | .error e => .failure [("error", e)] 500
      | .ok avail_ram =>
      match get_gpu_info i.cl_platforms i.gpu_cpu_load with
      | .error e => .failure [("error", e)] 500
      | .ok g =>
        .ok ⟨cpu_load, total_flops / 10 ^ 12, available_flops / 10 ^ 12,
             available_flops_percentage, i.rand_uniform * 100,
             avail_ram / 2 ^ 30, fcur, g⟩

/-- The GPU device whose figures survive the platform loop of
`get_gpu_info`: the first GPU device of the *last* platform that holds any
GPU device (each later GPU-holding platform overwrites the state, because
the `break` at main.py line 54 leaves only the inner loop). -/
def effectiveGpuDevice : List ClPlatform → Option ClDevice
  | [] => none
  | p :: ps =>
    match effectiveGpuDevice ps with
    | some d => some d
    | none => firstGPU p.devices

/-- One container as the docker runtime client presents it to the sweep:
its id and the outcome of a `stop()` and a `remove()` call on it
(`.error` stands for the call raising). -/
structure DockerContainer where
  cid : String
  stop_result : Except String Unit
  remove_result : Except String Unit
deriving DecidableEq, Repr

/-- One docker client call issued during a sweep. -/
inductive DockerAction where
  | stop (cid : String)
  | remove (cid : String)
deriving DecidableEq, Repr

/-- Embedding of `stop_all_docker_containers` (main.py lines 191-200): for each
container of `client.containers.list(all=True)`, in order, call `stop()`
then `remove()`.  The loop body has no exception handling, so the first
call that raises aborts the whole loop and the exception propagates out
of the endpoint.  The result records the calls actually issued and
either success or the propagated exception. -/
def stop_all_docker_containers :
    List DockerContainer → List DockerAction × Except String Unit
  | [] => ([], .ok ())
  | c :: rest =>
    match c.stop_result with
    | .error e => ([.stop c.cid], .error e)
    | .ok _ =>
      match c.remove_result with
      | .error e => ([.stop c.cid, .remove c.cid], .error e)
      | .ok _ =>
        let r := stop_all_docker_containers rest
        (.stop c.cid :: .remove c.cid :: r.1, r.2)

/-- The calls a sweep issues over a list of containers when every call
succeeds: stop then remove for each container, in list order. -/
def sweepActions : List DockerContainer → List DockerAction
  | [] => []
  | c :: rest => .stop c.cid :: .remove c.cid :: sweepActions rest

/-- One launched container as the docker client reports it back:
`cid` is `container.id`, `image_tags` is `container.image.tags`,
`container_status` is `container.status`, and `logsParse` is the result
of `json.loads(container.logs().decode())` — `.error` when the captured
output is not a single JSON document (`json.loads` raising
`JSONDecodeError`); the parsed document is modelled as a key/value
list. -/
structure ContainerHandle where
  cid : String
  image_tags : List String
  container_status : String
  logsParse : Except String (List (String × String))
deriving DecidableEq, Repr

/-- What the `run_docker_container` endpoint does, seen from the caller:
either the JSON body of main.py lines 181-188, or one of the distinct
exceptions the handler can let propagate: a docker launch error from
`client.containers.run` (line 172), a `JSONDecodeError` from parsing a
waited container's output (line 177), or the `IndexError` from
`container.image.tags[0]` on an untagged image (line 184). -/
inductive RunOutcome where
  | ok (container_id : String) (image : String) (status : String)
       (logs : List (String × String))
  | launchError (message : String)
  | outputMalformed (message : String)
  | internalError (message : String)
deriving DecidableEq, Repr

/-- Embedding of `run_docker_container` (main.py lines 153-188).  `launch` is the
outcome of `client.containers.run(image, detach=True, environment=...)`.
If `waited` is true the handler waits, reads the logs and parses them
with `json.loads`; a parse failure propagates (there is no `try` around
it) and is never replaced by empty logs.  If `waited` is false the logs
are the empty dictionary. -/
def run_docker_container (launch : Except String ContainerHandle)
    (waited : Bool) : RunOutcome :=
  match launch with
  | .error e => .launchError e
  | .ok c =>
    let logsE : Except String (List (String × String)) :=
      if waited then c.logsParse else .ok []
    match logsE with
    | .error e => .outputMalformed e
    | .ok logs_dict =>
      match c.image_tags with
      | [] => .internalError "list index out of range"
      | t :: _ => .ok c.cid t c.container_status logs_dict

/-- The arguments `set_load` hands to `client.containers.run`
(main.py lines 142-149): the environment dictionary is modelled as a
key/value list with the integer values passed as-is. -/
structure LaunchCall where
  image : String
  detach : Bool
  environment : List (String × Int)
deriving DecidableEq, Repr

/-- The single launch call `set_load` issues (main.py lines 142-149):
image `kr1t1ka/optimus`, detached, environment holding exactly the
incoming `percent` and `timestamp`. -/
def set_load_call (percent timestamp : Int) : LaunchCall :=
  ⟨"kr1t1ka/optimus", true, [("LOAD_PERCENT", percent), ("TIMESTAMP", timestamp)]⟩

/-- Embedding of `set_load` (main.py lines 136-150): `client` is the docker client's
`containers.run`; the endpoint returns the launched container's id
together with the route's declared status code 200. -/
def set_load (client : LaunchCall → ContainerHandle)
    (percent timestamp : Int) : String × ℕ :=
  ((client (set_load_call percent timestamp)).cid, 200)

/-- Telemetry sample of the spec's end-to-end scenario: 4 physical cores,
max and current clock read as 3.0 (the spec's GHz reading of a 3.0 GHz
host), CPU load 25%, no OpenCL platforms, zero free RAM, zero random
draw. -/
def sampleInputs : LoadInputs := ⟨.ok 25, .ok (3, 3), .ok 4, .ok 0, 0, .ok [], .ok 0⟩

/-- The body `get_load` produces on `sampleInputs`. -/
def sampleBody : LoadBody := ⟨25, 3 / 125, 9 / 500, 75, 0, 0, 3, ⟨none, 0, 0, 0⟩⟩

/-- Telemetry sample on which psutil reports both max and current clock
as zero. -/
def bothZeroInputs : LoadInputs := ⟨.ok 0, .ok (0, 0), .ok 4, .ok 0, 0, .ok [], .ok 0⟩

/-- Telemetry identical to `sampleInputs` except for the random draw. -/
def altRandInputs : LoadInputs := ⟨.ok 25, .ok (3, 3), .ok 4, .ok 0, 1 / 2, .ok [], .ok 0⟩

/-- The body `get_load` produces on `altRandInputs`. -/
def altRandBody : LoadBody := ⟨25, 3 / 125, 9 / 500, 75, 50, 0, 3, ⟨none, 0, 0, 0⟩⟩

/-- An OpenCL device that is not of GPU type (e.g. a CPU device). -/
def cpuClDevice : ClDevice := ⟨false, 8, 3000⟩

/-- Telemetry sample whose only OpenCL device is not of GPU type. -/
def noGpuInputs : LoadInputs :=
  ⟨.ok 25, .ok (3, 3), .ok 4, .ok 0, 0, .ok [⟨[cpuClDevice]⟩], .ok 25⟩

/-- A GPU-type OpenCL device: 16 compute units, 1500 MHz max clock. -/
def gpuDevice : ClDevice := ⟨true, 16, 1500⟩

/-- A smaller GPU-type OpenCL device on another platform. -/
def smallGpuDevice : ClDevice := ⟨true, 1, 1000⟩

/-- Telemetry sample with one GPU platform, whose CPU load sample at
main.py line 101 is 10 while the separate CPU sample taken inside
`get_gpu_info` is 20. -/
def mismatchInputs : LoadInputs :=
  ⟨.ok 10, .ok (3, 3), .ok 4, .ok 0, 0, .ok [⟨[gpuDevice]⟩], .ok 20⟩

/-- The body `get_load` produces on `mismatchInputs` (and on
`twoPlatformInputs`). -/
def mismatchBody : LoadBody :=
  ⟨10, 3 / 125, 27 / 1250, 90, 0, 0, 3, ⟨some 20, 6 / 125, 24 / 625, 80⟩⟩

/-- Telemetry sample with a GPU device on each of two platforms. -/
def twoPlatformInputs : LoadInputs :=
  ⟨.ok 10, .ok (3, 3), .ok 4, .ok 0, 0, .ok [⟨[smallGpuDevice]⟩, ⟨[gpuDevice]⟩], .ok 20⟩

/-- A container whose `stop()` call raises (it is already gone). -/
def goneContainer : DockerContainer := ⟨"c1", .error "404 Client Error: Not Found", .ok ()⟩

/-- A container whose `stop()` and `remove()` calls succeed. -/
def healthyContainer : DockerContainer := ⟨"c2", .ok (), .ok ()⟩

/-- A waited container whose captured output is not a JSON document. -/
def malformedOutputHandle : ContainerHandle :=
  ⟨"abc123", ["busybox:latest"], "exited", .error "Expecting value: line 1 column 1 (char 0)"⟩

/-- When the platform loop of `get_gpu_info` completes without raising,
the state it returns is the initial state if no platform holds a GPU
device, and otherwise the figures computed from `effectiveGpuDevice`. -/
theorem gpuLoop_ok (ps : List ClPlatform) (cl : ℚ) (st g : GpuInfo)
    (h : gpuLoop cl st ps = .ok g) :
    g = match effectiveGpuDevice ps with
        | none => st
        | some d => gpuComputed cl d := by
  induction ps generalizing st with
  | nil =>
    simp only [gpuLoop, Except.ok.injEq] at h
    simpa [effectiveGpuDevice] using h.symm
  | cons p ps ih =>
    rw [gpuLoop] at h
    cases hstep : gpuStep cl st p with
    | error e => rw [hstep] at h; exact absurd h (by simp)
    | ok st2 =>
      rw [hstep] at h
      have hg := ih st2 h
      unfold gpuStep at hstep
      cases hfirst : firstGPU p.devices with
      | none =>
        rw [hfirst] at hstep
        simp only [Except.ok.injEq] at hstep
        subst hstep
        cases hrest : effectiveGpuDevice ps with
        | none => simp [effectiveGpuDevice, hrest, hfirst, hrest ▸ hg]
        | some d => simp [effectiveGpuDevice, hrest, hrest ▸ hg]
      | some d =>
        rw [hfirst] at hstep
        simp only at hstep
        split at hstep
        · exact absurd hstep (by simp)
        · simp only [Except.ok.injEq] at hstep
          subst hstep
          cases hrest : effectiveGpuDevice ps with
          | none => simp [effectiveGpuDevice, hrest, hfirst, hrest ▸ hg]
          | some d2 => simp [effectiveGpuDevice, hrest, hrest ▸ hg]

/-- Inversion of a successful `get_load`: every telemetry read succeeded,
`total_flops` was nonzero, the GPU query succeeded, and the body is the
tuple of main.py lines 119-128 expressed in those values. -/
theorem get_load_ok_inv (i : LoadInputs) (b : LoadBody)
    (h : get_load i = .ok b) :
    ∃ L fmax fcur n ram g,
      i.cpu_load = .ok L ∧ i.cpu_freq = .ok (fmax, fcur) ∧
      i.num_cores = .ok n ∧ i.virtual_memory_available = .ok ram ∧
      get_gpu_info i.cl_platforms i.gpu_cpu_load = .ok g ∧
      cpu_total_flops n fmax fcur ≠ 0 ∧
      b = ⟨L, cpu_total_flops n fmax fcur / 10 ^ 12,
           cpu_total_flops n fmax fcur * (1 - L / 100) / 10 ^ 12,
           cpu_total_flops n fmax fcur * (1 - L / 100) /
             cpu_total_flops n fmax fcur * 100,
           i.rand_uniform * 100, ram / 2 ^ 30, fcur, g⟩ := by
  unfold get_load at h
  cases hcl : i.cpu_load with
  | error e => rw [hcl] at h; exact absurd h (by simp)
  | ok L =>
  rw [hcl] at h
  cases hcf : i.cpu_freq with
  | error e => rw [hcf] at h; exact absurd h (by simp)
  | ok mc =>
  obtain ⟨fmax, fcur⟩ := mc
  rw [hcf] at h
  cases hnc : i.num_cores with
  | error e => rw [hnc] at h; exact absurd h (by simp)
  | ok n =>
  rw [hnc] at h
  simp only at h
  split at h
  · exact absurd h (by simp)
  next htz =>
  cases hvm : i.virtual_memory_available with
  | error e => rw [hvm] at h; exact absurd h (by simp)
  | ok ram =>
  rw [hvm] at h
  cases hgpu : get_gpu_info i.cl_platforms i.gpu_cpu_load with
  | error e => rw [hgpu] at h; exact absurd h (by simp)
  | ok g =>
  rw [hgpu] at h
  simp only [LoadResult.ok.injEq] at h
  exact ⟨L, fmax, fcur, n, ram, g, rfl, rfl, rfl, rfl, rfl, htz, h.symm⟩

/-- Inversion of a successful `get_gpu_info`: both reads succeeded and the
platform loop ran to completion. -/
theorem get_gpu_info_ok_inv (pe : Except String (List ClPlatform))
    (ce : Except String ℚ) (g : GpuInfo)
    (h : get_gpu_info pe ce = .ok g) :
    ∃ ps cl, pe = .ok ps ∧ ce = .ok cl ∧
      gpuLoop cl ⟨none, 0, 0, 0⟩ ps = .ok g := by
  unfold get_gpu_info at h
  cases pe with
  | error e => exact absurd h (by simp)
  | ok ps =>
    cases ce with
    | error e => exact absurd h (by simp)
    | ok cl => exact ⟨ps, cl, rfl, rfl, h⟩

/-- When no platform holds a GPU device, no device survives the loop. -/
theorem effectiveGpuDevice_eq_none (ps : List ClPlatform)
    (h : ∀ p ∈ ps, firstGPU p.devices = none) :
    effectiveGpuDevice ps = none := by
  induction ps with
  | nil => rfl
  | cons p ps ih =>
    have hp := h p (List.mem_cons_self p ps)
    have hrest := ih (fun q hq => h q (List.mem_cons_of_mem p hq))
    simp [effectiveGpuDevice, hrest, hp]

/-- When every `stop()` and `remove()` call succeeds, the sweep issues
the full action list, in order, and succeeds. -/
theorem sweep_all_ok (cs : List DockerContainer)
    (h : ∀ c ∈ cs, c.stop_result = .ok () ∧ c.remove_result = .ok ()) :
    stop_all_docker_containers cs = (sweepActions cs, .ok ()) := by
  induction cs with
  | nil => rfl
  | cons c rest ih =>
    obtain ⟨h1, h2⟩ := h c (List.mem_cons_self c rest)
    have hrest := ih (fun q hq => h q (List.mem_cons_of_mem c hq))
    simp [stop_all_docker_containers, h1, h2, hrest, sweepActions]

/-- C1: for every capacity read in which the derived total throughput is
positive and the sampled CPU load L lies in [0,100], the response body
satisfies `available_FLOPS = total_FLOPS * (1 - L/100)` and
`available_FLOPS_percentage = 100 - L` exactly; in particular `L = 0`
gives available equal to total and `L = 100` gives available equal to
zero. -/
theorem c1_available_flops_derivation (i : LoadInputs) (L : ℚ) (b : LoadBody)
    (hok : get_load i = .ok b) (hL : i.cpu_load = .ok L)
    (h0 : 0 ≤ L) (h100 : L ≤ 100) (hpos : 0 < b.total_FLOPS) :
    b.available_FLOPS = b.total_FLOPS * (1 - L / 100) ∧
    b.available_FLOPS_percentage = 100 - L ∧
    (L = 0 → b.available_FLOPS = b.total_FLOPS) ∧
    (L = 100 → b.available_FLOPS = 0) := by
  obtain ⟨L2, fmax, fcur, n, ram, g, hcl, hcf, hnc, hvm, hgpu, htz, hb⟩ :=
    get_load_ok_inv i b hok
  rw [hL] at hcl
  injection hcl with hcl
  subst hcl
  subst hb
  dsimp only
  refine ⟨by ring, ?_, ?_, ?_⟩
  · field_simp
    ring
  · intro hz; subst hz; norm_num
  · intro hz; subst hz; norm_num

/-- Witness for C1 at the spec's reference scenario (4 cores, clock read
3.0, load 25%). -/
theorem c1_available_flops_derivation_witness :
    sampleBody.available_FLOPS = sampleBody.total_FLOPS * (1 - 25 / 100) ∧
    sampleBody.available_FLOPS_percentage = 100 - 25 ∧
    ((25 : ℚ) = 0 → sampleBody.available_FLOPS = sampleBody.total_FLOPS) ∧
    ((25 : ℚ) = 100 → sampleBody.available_FLOPS = 0) :=
  c1_available_flops_derivation sampleInputs 25 sampleBody
    (by norm_num [sampleInputs, sampleBody, get_load, cpu_total_flops,
      effective_max_freq, get_gpu_info, gpuLoop, gpuStep, gpuComputed, firstGPU])
    rfl (by norm_num) (by norm_num) (by norm_num [sampleBody])

/-- C2 counterexample: on the spec's end-to-end scenario (4 physical
cores, max clock read 3.0, load 25%) the response body does not report
`total_FLOPS = 2.4e10` and `available_FLOPS = 1.8e10`: the handler
divides both by `10^12` before putting them in the body
(main.py lines 121-122). -/
theorem c2_total_flops_counterexample :
    get_load sampleInputs = .ok sampleBody ∧
    sampleBody.total_FLOPS ≠ 24000000000 ∧
    sampleBody.available_FLOPS ≠ 18000000000 := by
  refine ⟨?_, ?_, ?_⟩
  · norm_num [sampleInputs, sampleBody, get_load, cpu_total_flops,
      effective_max_freq, get_gpu_info, gpuLoop, gpuStep, gpuComputed, firstGPU]
  · norm_num [sampleBody]
  · norm_num [sampleBody]

/-- C2 amended: on that scenario the internal computation of
main.py line 110 yields `total_flops = 2.4e10`, but the body reports
`total_FLOPS = 2.4e10 / 10^12 = 0.024` and
`available_FLOPS = 1.8e10 / 10^12 = 0.018`;
`available_FLOPS_percentage = 75` is reported as claimed. -/
theorem c2_total_flops_amended :
    cpu_total_flops 4 3 3 = 24000000000 ∧
    get_load sampleInputs = .ok sampleBody ∧
    sampleBody.total_FLOPS = 24000000000 / 10 ^ 12 ∧
    sampleBody.available_FLOPS = 18000000000 / 10 ^ 12 ∧
    sampleBody.available_FLOPS_percentage = 75 := by
  refine ⟨?_, ?_, ?_, ?_, ?_⟩
  · norm_num [cpu_total_flops, effective_max_freq]
  · norm_num [sampleInputs, sampleBody, get_load, cpu_total_flops,
      effective_max_freq, get_gpu_info, gpuLoop, gpuStep, gpuComputed, firstGPU]
  · norm_num [sampleBody]
  · norm_num [sampleBody]
  · norm_num [sampleBody]

/-- C3 counterexample: when psutil reports both max and current clock as
zero, the computation does divide by zero — `total_flops` is 0 and the
division of main.py line 115 raises `ZeroDivisionError`, which the
`except` clause turns into the 500 error pair.  No body, and in
particular no `total_flops`, is reported at all. -/
theorem c3_divide_by_zero_counterexample :
    get_load bothZeroInputs = .failure [("error", "float division by zero")] 500 := by
  norm_num [bothZeroInputs, get_load, cpu_total_flops, effective_max_freq,
    get_gpu_info, gpuLoop, gpuStep, gpuComputed, firstGPU]

/-- C3 amended: if the platform reports a maximum clock of 0, the
estimator substitutes the current clock; when the current clock is
positive (and the core count nonzero) `total_flops` is nonzero and no
division by zero occurs, but when the current clock is also 0 the
computation divides by zero and the caught error — not a zero
`total_flops` — is returned; a successful body never reports
`total_FLOPS = 0`. -/
theorem c3_max_clock_fallback_amended (i : LoadInputs) (L fcur : ℚ) (n : ℕ)
    (hcl : i.cpu_load = .ok L) (hcf : i.cpu_freq = .ok (0, fcur))
    (hnc : i.num_cores = .ok n) :
    effective_max_freq 0 fcur = fcur ∧
    (0 < fcur → 0 < n → cpu_total_flops n 0 fcur ≠ 0) ∧
    (fcur = 0 →
      get_load i = .failure [("error", "float division by zero")] 500) ∧
    (∀ b : LoadBody, get_load i = .ok b → b.total_FLOPS ≠ 0) := by
  refine ⟨by norm_num [effective_max_freq], ?_, ?_, ?_⟩
  · intro hf hn
    have hn' : (0 : ℚ) < n := by exact_mod_cast hn
    have : (0 : ℚ) < 2 * n * fcur * 10 ^ 9 := by positivity
    simp only [cpu_total_flops, effective_max_freq]
    norm_num
    exact ⟨by linarith, by linarith⟩
  · intro hf
    subst hf
    unfold get_load
    rw [hcl, hcf, hnc]
    simp [cpu_total_flops, effective_max_freq]
  · intro b hok
    obtain ⟨L2, fmax, fcur2, n2, ram, g, hcl2, hcf2, hnc2, hvm, hgpu, htz, hb⟩ :=
      get_load_ok_inv i b hok
    subst hb
    exact div_ne_zero htz (by norm_num)

/-- Witness for C3 at a telemetry sample whose clocks are both zero. -/
theorem c3_max_clock_fallback_amended_witness :
    effective_max_freq 0 0 = 0 ∧
    ((0 : ℚ) < 0 → 0 < 4 → cpu_total_flops 4 0 0 ≠ 0) ∧
    ((0 : ℚ) = 0 →
      get_load bothZeroInputs = .failure [("error", "float division by zero")] 500) ∧
    (∀ b : LoadBody, get_load bothZeroInputs = .ok b → b.total_FLOPS ≠ 0) :=
  c3_max_clock_fallback_amended bothZeroInputs 0 0 4 rfl rfl rfl

/-- C4: whenever `get_load` fails it does not raise to the caller: the
`except` clause of main.py lines 131-133 returns the dictionary
`{"error": <message>}` paired with the 500 status, for every possible
failure. -/
theorem c4_error_surfaced (i : LoadInputs) (body : List (String × String))
    (status : ℕ) (h : get_load i = .failure body status) :
    status = 500 ∧ ∃ m, body = [("error", m)] := by
  unfold get_load at h
  cases hcl : i.cpu_load with
  | error e =>
    rw [hcl] at h
    simp only [LoadResult.failure.injEq] at h
    exact ⟨h.2.symm, _, h.1.symm⟩
  | ok L =>
  rw [hcl] at h
  cases hcf : i.cpu_freq with
  | error e =>
    rw [hcf] at h
    simp only [LoadResult.failure.injEq] at h
    exact ⟨h.2.symm, _, h.1.symm⟩
  | ok mc =>
  obtain ⟨fmax, fcur⟩ := mc
  rw [hcf] at h
  cases hnc : i.num_cores with
  | error e =>
    rw [hnc] at h
    simp only [LoadResult.failure.injEq] at h
    exact ⟨h.2.symm, _, h.1.symm⟩
  | ok n =>
  rw [hnc] at h
  simp only at h
  split at h
  · simp only [LoadResult.failure.injEq] at h
    exact ⟨h.2.symm, _, h.1.symm⟩
  · cases hvm : i.virtual_memory_available with
    | error e =>
      rw [hvm] at h
      simp only [LoadResult.failure.injEq] at h
      exact ⟨h.2.symm, _, h.1.symm⟩
    | ok ram =>
    rw [hvm] at h
    cases hgpu : get_gpu_info i.cl_platforms i.gpu_cpu_load with
    | error e =>
      rw [hgpu] at h
      simp only [LoadResult.failure.injEq] at h
      exact ⟨h.2.symm, _, h.1.symm⟩
    | ok g =>
    rw [hgpu] at h
    exact absurd h (by simp)

/-- Witness for C4 at the double-zero-clock failure. -/
theorem c4_error_surfaced_witness :
    (500 : ℕ) = 500 ∧
    ∃ m, [("error", "float division by zero")] = [("error", m)] :=
  c4_error_surfaced bothZeroInputs [("error", "float division by zero")] 500
    (by norm_num [bothZeroInputs, get_load, cpu_total_flops, effective_max_freq,
      get_gpu_info, gpuLoop, gpuStep, gpuComputed, firstGPU])

/-- C5 counterexample: with two containers where the first one's `stop()`
raises, the sweep issues only the failing stop call and never attempts
the second container — the loop of main.py lines 196-198 has no
per-container error handling, so the first failure aborts reclamation of
the rest. -/
theorem c5_sweep_counterexample :
    stop_all_docker_containers [goneContainer, healthyContainer] =
      ([.stop "c1"], .error "404 Client Error: Not Found") ∧
    DockerAction.stop "c2" ∉
      (stop_all_docker_containers [goneContainer, healthyContainer]).1 := by
  constructor
  · rfl
  · decide

/-- C5 amended: the sweep attempts containers strictly in order and
aborts at the first per-container failure; all N containers are attempted
(stop then remove each) exactly when every call succeeds, the empty sweep
trivially succeeds, and when the first failure is a `stop()` raising on
container `c` the sweep ends with that call and the containers after `c`
are never attempted. -/
theorem c5_sweep_amended (pre post : List DockerContainer)
    (c : DockerContainer) (e : String)
    (hpre : ∀ c' ∈ pre, c'.stop_result = .ok () ∧ c'.remove_result = .ok ())
    (hc : c.stop_result = .error e) :
    stop_all_docker_containers (pre ++ c :: post) =
      (sweepActions pre ++ [.stop c.cid], .error e) ∧
    (∀ cs : List DockerContainer,
      (∀ c' ∈ cs, c'.stop_result = .ok () ∧ c'.remove_result = .ok ()) →
        stop_all_docker_containers cs = (sweepActions cs, .ok ())) ∧
    stop_all_docker_containers [] = ([], .ok ()) := by
  refine ⟨?_, fun cs h => sweep_all_ok cs h, rfl⟩
  induction pre with
  | nil => simp [stop_all_docker_containers, hc, sweepActions]
  | cons a pre ih =>
    obtain ⟨h1, h2⟩ := hpre a (List.mem_cons_self a pre)
    have hrest := ih (fun q hq => hpre q (List.mem_cons_of_mem a hq))
    simp [stop_all_docker_containers, h1, h2, hrest, sweepActions]

/-- Witness for C5: a healthy container followed by one whose stop
raises. -/
theorem c5_sweep_amended_witness :
    stop_all_docker_containers ([healthyContainer] ++ goneContainer :: []) =
      (sweepActions [healthyContainer] ++ [.stop goneContainer.cid],
       .error "404 Client Error: Not Found") ∧
    (∀ cs : List DockerContainer,
      (∀ c' ∈ cs, c'.stop_result = .ok () ∧ c'.remove_result = .ok ()) →
        stop_all_docker_containers cs = (sweepActions cs, .ok ())) ∧
    stop_all_docker_containers [] = ([], .ok ()) :=
  c5_sweep_amended [healthyContainer] [] goneContainer
    "404 Client Error: Not Found" (by decide) rfl

/-- C6: launching a waited job whose captured output fails to parse as a
single JSON document surfaces the propagated `JSONDecodeError` — an
outcome distinct from a launch failure — and never returns a successful
result, in particular not one with empty logs. -/
theorem c6_output_malformed_surfaced (c : ContainerHandle) (e : String)
    (hparse : c.logsParse = .error e) :
    run_docker_container (.ok c) true = .outputMalformed e ∧
    (∀ m, RunOutcome.outputMalformed e ≠ .launchError m) ∧
    (∀ cid im st logs, run_docker_container (.ok c) true ≠ .ok cid im st logs) := by
  refine ⟨?_, by simp, ?_⟩
  · unfold run_docker_container
    simp [hparse]
  · intro cid im st logs
    unfold run_docker_container
    simp [hparse]

/-- Witness for C6 at a container emitting non-JSON output. -/
theorem c6_output_malformed_surfaced_witness :
    run_docker_container (.ok malformedOutputHandle) true =
      .outputMalformed "Expecting value: line 1 column 1 (char 0)" ∧
    (∀ m, RunOutcome.outputMalformed
      "Expecting value: line 1 column 1 (char 0)" ≠ .launchError m) ∧
    (∀ cid im st logs,
      run_docker_container (.ok malformedOutputHandle) true ≠ .ok cid im st logs) :=
  c6_output_malformed_surfaced malformedOutputHandle
    "Expecting value: line 1 column 1 (char 0)" rfl

/-- C7 counterexample: on a host whose only OpenCL device is not a GPU,
the `gpu` entry of the response is present and zero-filled
(`gpu_load` null, all figures 0) — it is not absent. -/
theorem c7_gpu_field_counterexample :
    get_load noGpuInputs = .ok sampleBody ∧
    sampleBody.gpu = ⟨none, 0, 0, 0⟩ ∧
    sampleBody.gpu.gpu_load = none ∧
    sampleBody.gpu.total_FLOPS = 0 ∧
    sampleBody.gpu.available_FLOPS = 0 ∧
    sampleBody.gpu.available_FLOPS_percentage = 0 := by
  refine ⟨?_, rfl, rfl, rfl, rfl, rfl⟩
  norm_num [noGpuInputs, sampleBody, cpuClDevice, get_load, cpu_total_flops,
    effective_max_freq, get_gpu_info, gpuLoop, gpuStep, gpuComputed, firstGPU,
    List.find?]

/-- C7 amended: on every capacity read on a host with no GPU-class
OpenCL device, the `gpu` field of a successful body is present but holds
the zero-filled defaults of main.py lines 26-29: null load and zero
FLOPS figures. -/
theorem c7_gpu_field_amended (i : LoadInputs) (ps : List ClPlatform)
    (b : LoadBody) (hps : i.cl_platforms = .ok ps)
    (hnogpu : ∀ p ∈ ps, ∀ d ∈ p.devices, d.isGPU = false)
    (hok : get_load i = .ok b) :
    b.gpu = ⟨none, 0, 0, 0⟩ := by
  obtain ⟨L, fmax, fcur, n, ram, g, hcl, hcf, hnc, hvm, hgpu, htz, hb⟩ :=
    get_load_ok_inv i b hok
  obtain ⟨ps2, cl, hpe, hce, hloop⟩ := get_gpu_info_ok_inv _ _ _ hgpu
  rw [hps] at hpe
  injection hpe with hpe
  subst hpe
  have hfirst : ∀ p ∈ ps, firstGPU p.devices = none := by
    intro p hp
    refine List.find?_eq_none.mpr ?_
    intro d hd
    simp [hnogpu p hp d hd]
  have h2 := gpuLoop_ok ps cl ⟨none, 0, 0, 0⟩ g hloop
  rw [effectiveGpuDevice_eq_none ps hfirst] at h2
  subst hb
  simpa using h2

/-- Witness for C7 at the CPU-only-OpenCL-device sample. -/
theorem c7_gpu_field_amended_witness : sampleBody.gpu = ⟨none, 0, 0, 0⟩ :=
  c7_gpu_field_amended noGpuInputs [⟨[cpuClDevice]⟩] sampleBody rfl (by decide)
    (by norm_num [noGpuInputs, sampleBody, cpuClDevice, get_load,
      cpu_total_flops, effective_max_freq, get_gpu_info, gpuLoop, gpuStep,
      gpuComputed, firstGPU, List.find?])

/-- C8 counterexample: with a GPU present, the reported gpu load is the
separate CPU sample taken inside `get_gpu_info` (here 20), not the CPU
load sample of the same capacity read (here 10) — the two samples are
distinct 1-second `psutil.cpu_percent` calls and differ. -/
theorem c8_gpu_load_counterexample :
    get_load mismatchInputs = .ok mismatchBody ∧
    mismatchBody.cpu_load = 10 ∧
    mismatchBody.gpu.gpu_load = some 20 ∧
    mismatchBody.gpu.gpu_load ≠ some mismatchBody.cpu_load := by
  refine ⟨?_, rfl, rfl, by norm_num [mismatchBody]⟩
  norm_num [mismatchInputs, mismatchBody, gpuDevice, get_load,
    cpu_total_flops, effective_max_freq, get_gpu_info, gpuLoop, gpuStep,
    gpuComputed, firstGPU, List.find?]

/-- C8 amended: with a GPU-class device present, the body's gpu figures
are derived — via the `2 × compute-units × clock × 10^6 / 10^12`
heuristic — from the first GPU device of the *last* platform holding one
(the `break` leaves only the inner loop), and the reported gpu load is
the fresh CPU sample taken inside `get_gpu_info`, which is not the
read's own `cpu_load` sample. -/
theorem c8_gpu_load_amended (i : LoadInputs) (gcl : ℚ) (ps : List ClPlatform)
    (d : ClDevice) (b : LoadBody)
    (hps : i.cl_platforms = .ok ps) (hgcl : i.gpu_cpu_load = .ok gcl)
    (hd : effectiveGpuDevice ps = some d)
    (hok : get_load i = .ok b) :
    b.gpu = gpuComputed gcl d ∧
    b.gpu.gpu_load = some gcl ∧
    b.gpu.total_FLOPS =
      2 * d.max_compute_units * d.max_clock_frequency * 10 ^ 6 / 10 ^ 12 ∧
    b.gpu.available_FLOPS = b.gpu.total_FLOPS * (1 - gcl / 100) ∧
    b.gpu.available_FLOPS_percentage =
      b.gpu.available_FLOPS / b.gpu.total_FLOPS * 100 := by
  obtain ⟨L, fmax, fcur, n, ram, g, hcl, hcf, hnc, hvm, hgpu, htz, hb⟩ :=
    get_load_ok_inv i b hok
  obtain ⟨ps2, cl, hpe, hce, hloop⟩ := get_gpu_info_ok_inv _ _ _ hgpu
  rw [hps] at hpe
  injection hpe with hpe
  subst hpe
  rw [hgcl] at hce
  injection hce with hce
  subst hce
  have h2 := gpuLoop_ok ps gcl ⟨none, 0, 0, 0⟩ g hloop
  rw [hd] at h2
  dsimp only at h2
  subst hb
  subst h2
  refine ⟨rfl, rfl, rfl, rfl, rfl⟩

/-- Witness for C8: GPU devices on two platforms; the second platform's
device wins and the gpu load is the in-query sample 20 while the read's
`cpu_load` is 10. -/
theorem c8_gpu_load_amended_witness :
    mismatchBody.gpu = gpuComputed 20 gpuDevice ∧
    mismatchBody.gpu.gpu_load = some 20 ∧
    mismatchBody.gpu.total_FLOPS =
      2 * gpuDevice.max_compute_units * gpuDevice.max_clock_frequency *
        10 ^ 6 / 10 ^ 12 ∧
    mismatchBody.gpu.available_FLOPS =
      mismatchBody.gpu.total_FLOPS * (1 - 20 / 100) ∧
    mismatchBody.gpu.available_FLOPS_percentage =
      mismatchBody.gpu.available_FLOPS / mismatchBody.gpu.total_FLOPS * 100 :=
  c8_gpu_load_amended twoPlatformInputs 20 [⟨[smallGpuDevice]⟩, ⟨[gpuDevice]⟩]
    gpuDevice mismatchBody rfl rfl rfl
    (by norm_num [twoPlatformInputs, mismatchBody, gpuDevice, smallGpuDevice,
      get_load, cpu_total_flops, effective_max_freq, get_gpu_info, gpuLoop,
      gpuStep, gpuComputed, firstGPU, List.find?])

/-- C9: `set_load` launches the dedicated load-generator image with the
requested percent and timestamp passed through unmodified and
unvalidated (for every integer value, with no clamping) in the job's
environment, and returns the runtime-assigned container id as a bare
string with status 200. -/
theorem c9_set_load_pass_through (client : LaunchCall → ContainerHandle)
    (percent timestamp : Int) :
    set_load client percent timestamp =
      ((client (set_load_call percent timestamp)).cid, 200) ∧
    (set_load_call percent timestamp).image = "kr1t1ka/optimus" ∧
    (set_load_call percent timestamp).detach = true ∧
    (set_load_call percent timestamp).environment =
      [("LOAD_PERCENT", percent), ("TIMESTAMP", timestamp)] ∧
    (set_load_call percent timestamp).environment.lookup "LOAD_PERCENT" =
      some percent ∧
    (set_load_call percent timestamp).environment.lookup "TIMESTAMP" =
      some timestamp := by
  refine ⟨rfl, rfl, rfl, rfl, ?_, ?_⟩ <;> simp [set_load_call, List.lookup]

/-- C10: the capacity-read response is not a function of the sampled
telemetry: two reads with identical telemetry but different
`random.uniform` draws return different bodies, because the
`available_gpu_FLOPS_percentage` field is the random draw times 100. -/
theorem c10_random_field_nondeterminism :
    altRandInputs.cpu_load = sampleInputs.cpu_load ∧
    altRandInputs.cpu_freq = sampleInputs.cpu_freq ∧
    altRandInputs.num_cores = sampleInputs.num_cores ∧
    altRandInputs.virtual_memory_available =
      sampleInputs.virtual_memory_available ∧
    altRandInputs.cl_platforms = sampleInputs.cl_platforms ∧
    altRandInputs.gpu_cpu_load = sampleInputs.gpu_cpu_load ∧
    altRandInputs.rand_uniform ≠ sampleInputs.rand_uniform ∧
    get_load sampleInputs = .ok sampleBody ∧
    get_load altRandInputs = .ok altRandBody ∧
    sampleBody.available_gpu_FLOPS_percentage =
      sampleInputs.rand_uniform * 100 ∧
    altRandBody.available_gpu_FLOPS_percentage =
      altRandInputs.rand_uniform * 100 ∧
    get_load altRandInputs ≠ get_load sampleInputs := by
  have e1 : get_load sampleInputs = .ok sampleBody := by
    norm_num [sampleInputs, sampleBody, get_load, cpu_total_flops,
      effective_max_freq, get_gpu_info, gpuLoop, gpuStep, gpuComputed, firstGPU]
  have e2 : get_load altRandInputs = .ok altRandBody := by
    norm_num [altRandInputs, altRandBody, get_load, cpu_total_flops,
      effective_max_freq, get_gpu_info, gpuLoop, gpuStep, gpuComputed, firstGPU]
  refine ⟨rfl, rfl, rfl, rfl, rfl, rfl,
    by norm_num [altRandInputs, sampleInputs], e1, e2,
    by norm_num [sampleBody, sampleInputs],
    by norm_num [altRandBody, altRandInputs], ?_⟩
  rw [e1, e2]
  norm_num [sampleBody, altRandBody, LoadBody.mk.injEq]

end FogWorker
